import Mathlib

/-!
Verification of the az-sociofiscal-sim simplified-tax calculator.

The repository ships the Next.js frontend (`frontend/lib/api.ts`,
`frontend/lib/types.ts`, `frontend/app/calculator/page.tsx`,
`frontend/components/questionnaire/ResultCard.tsx`) together with the
project documentation (`README.md`, `docs/DECISION_TREE.md`,
`docs/DATA_DICTIONARY.md`).  The backend rules engine
(`backend/az_sim/engine.py`) is not part of the sources, so the engine
is modelled here from the specification and the in-repo documentation,
while the frontend behaviour is embedded directly from the TypeScript
sources.  Monetary values and ratios are modelled as rationals.
-/

/-- Tax routes, from `frontend/lib/types.ts` (`TaxRoute`). -/
inductive TaxRoute where
  | general
  | trade_catering_over_200k
  | auto_transport
  | auto_betting_lottery
  | auto_property
  | auto_land
  | auto_fixed_220_10
deriving DecidableEq, Repr

/-- Property types, from `frontend/lib/types.ts` (`PropertyType`). -/
inductive PropertyType where
  | residential
  | non_residential
deriving DecidableEq, Repr

/-- Location zones, from `frontend/lib/types.ts` (`LocationZone`). -/
inductive LocationZone where
  | baku_center
  | baku_other
  | sumgait_ganja_lankaran
  | other_cities
  | rural
deriving DecidableEq, Repr

/-- Turnover sub-object, from `frontend/lib/types.ts` (`TurnoverInput`).
The `vat_exempt_categories` list is carried as strings. -/
structure TurnoverInput where
  gross_turnover_12m : ℚ
  vat_exempt_turnover_12m : ℚ
  vat_exempt_categories : List String
  pos_retail_nonregistered_12m : ℚ
  pos_services_nonregistered_12m : ℚ
deriving DecidableEq, Repr

/-- Property-transfer sub-object, from `frontend/lib/types.ts`
(`PropertyTransferInput`). -/
structure PropertyTransferInput where
  property_type : PropertyType
  area_m2 : ℚ
  location_zone : LocationZone
  is_registered_3yr : Bool
  has_proof_3yr_one_home : Bool
  is_family_gift_inheritance : Bool
deriving DecidableEq, Repr

/-- Evaluation request, from `frontend/lib/types.ts` (`EvaluateRequest`).
`is_vat_registered` is kept optional because the wizard distinguishes the
unanswered state; the remaining boolean flags are initialised to concrete
booleans by the wizard and normalised to booleans by the validator
(spec section 4.1), so they are carried as `Bool`. -/
structure EvaluateRequest where
  is_vat_registered : Option Bool
  route_auto_transport : Bool
  route_auto_betting_lottery : Bool
  route_auto_property : Bool
  route_auto_fixed_220_10 : Bool
  route_auto_land : Bool
  property_transfer : Option PropertyTransferInput
  does_trade : Bool
  does_catering : Bool
  turnover : Option TurnoverInput
  produces_excise_goods : Bool
  is_credit_org : Bool
  is_insurance_market_participant : Bool
  is_investment_fund : Bool
  is_securities_licensed : Bool
  is_pawnshop : Bool
  is_non_state_pension_fund : Bool
  has_rental_income : Bool
  has_royalty_income : Bool
  is_natural_monopoly : Bool
  fixed_assets_residual_value : Option ℚ
  licensed_activity_codes : List String
  has_compulsory_insurance_carveout : Bool
  does_production : Bool
  avg_quarterly_employees : Option ℚ
  does_wholesale : Bool
  wholesale_einvoice_ratio : Option ℚ
  does_b2b_works_services : Bool
  b2b_einvoice_ratio : Option ℚ
  sells_gold_jewelry_diamonds : Bool
  sells_fur_leather : Bool
  is_public_legal_entity : Bool
deriving DecidableEq, Repr

/-- Legal-basis citation, from `frontend/lib/types.ts` (`LegalBasis`). -/
structure LegalBasis where
  article : String
  description : String
  source_url : String
deriving DecidableEq, Repr

/-- One debug-trace entry, from `frontend/lib/types.ts`
(`EvaluateResponse.debug_trace`). -/
structure TraceEntry where
  rule : String
  result : Bool
  details : String
  article : String
deriving DecidableEq, Repr

/-- Evaluation response, from `frontend/lib/types.ts`
(`EvaluateResponse`).  TypeScript `undefined` and `null` are both
modelled as `none`. -/
structure EvaluateResponse where
  eligible : Bool
  tax_amount : Option ℚ
  currency : String
  route : Option TaxRoute
  tax_base : Option ℚ
  tax_rate : Option ℚ
  exemptions_applied : List String
  reason_code : Option String
  reason_description : Option String
  legal_basis : List LegalBasis
  debug_trace : Option (List TraceEntry)
deriving DecidableEq, Repr

/-- Modelled from the spec: configuration constant `TURNOVER_THRESHOLD`
(spec section 6, `docs/DATA_DICTIONARY.md`); the backend constants module
is not in the sources. -/
def TURNOVER_THRESHOLD : ℚ := 200000

/-- Modelled from the spec: configuration constant `POS_COEFFICIENT`
(spec section 6, `docs/DATA_DICTIONARY.md`). -/
def POS_COEFFICIENT : ℚ := 1/2

/-- Modelled from the spec: configuration constant
`FIXED_ASSETS_THRESHOLD` (spec section 6). -/
def FIXED_ASSETS_THRESHOLD : ℚ := 1000000

/-- Modelled from the spec: configuration constant `EMPLOYEE_THRESHOLD`
(spec section 6). -/
def EMPLOYEE_THRESHOLD : ℚ := 10

/-- Modelled from the spec: configuration constant
`EXCEPTION_RATIO_THRESHOLD` (spec section 6). -/
def EXCEPTION_RATIO_THRESHOLD : ℚ := 3/10

/-- Modelled from the spec: configuration constant `GENERAL_TAX_RATE`
(spec section 6). -/
def GENERAL_TAX_RATE : ℚ := 2/100

/-- Modelled from the spec: derived value `vat_taxable = gross -
vat_exempt` (`docs/DATA_DICTIONARY.md`, derived variables table); the
backend turnover calculator is not in the sources. -/
def vat_taxable (t : TurnoverInput) : ℚ :=
  t.gross_turnover_12m - t.vat_exempt_turnover_12m

/-- Modelled from the spec: derived value `pos_eligible = pos_retail +
pos_services` (`docs/DATA_DICTIONARY.md`). -/
def pos_eligible (t : TurnoverInput) : ℚ :=
  t.pos_retail_nonregistered_12m + t.pos_services_nonregistered_12m

/-- Modelled from the spec: `adjusted_turnover = vat_taxable -
pos_eligible x POS_COEFFICIENT` (`docs/DATA_DICTIONARY.md`,
`docs/DECISION_TREE.md` Q4); no clamping of a negative result. -/
def adjusted_turnover (t : TurnoverInput) : ℚ :=
  vat_taxable t - pos_eligible t * POS_COEFFICIENT

/-- Empty turnover object used when the optional turnover sub-object is
absent from the request (README example sends only `gross_turnover_12m`;
the other monetary fields default to zero). -/
def emptyTurnover : TurnoverInput :=
  { gross_turnover_12m := 0
    vat_exempt_turnover_12m := 0
    vat_exempt_categories := []
    pos_retail_nonregistered_12m := 0
    pos_services_nonregistered_12m := 0 }

/-- Rounding to two decimal places, used by the tax calculator
(spec section 4.5: `round(adjusted_turnover x 0.02, 2)`). -/
def round2 (q : ℚ) : ℚ := (round (q * 100) : ℤ) / 100

/-- Modelled from the spec: zone coefficients for the property route
(spec section 4.5, `docs/DATA_DICTIONARY.md`). -/
def zoneCoefficient : LocationZone → ℚ
  | .baku_center => 5/2
  | .baku_other => 2
  | .sumgait_ganja_lankaran => 3/2
  | .other_cities => 6/5
  | .rural => 1

/-- Outcome of the route-selector state machine (spec section 4.3):
either a terminal state or a selected route. -/
inductive RouteOutcome where
  | notEligible (article : String)
  | exempt
  | route (r : TaxRoute)
deriving DecidableEq, Repr

/-- Modelled from the spec: the route-selector state machine of spec
section 4.3 (`VAT_CHECK`, `AUTO_ROUTE_CHECK` in priority order
transport, betting, property, fixed-220.10, land, `PROPERTY_SUBCHECK`,
`TURNOVER_ROUTE`); the backend route selector is not in the sources.
The property sub-check reads the exemption booleans of the validated
`property_transfer` sub-object; when that sub-object is absent no
exemption applies. -/
def selectRoute (p : EvaluateRequest) : RouteOutcome :=
  if p.is_vat_registered.getD false then .notEligible "218.1.1"
  else if p.route_auto_transport then .route .auto_transport
  else if p.route_auto_betting_lottery then .route .auto_betting_lottery
  else if p.route_auto_property then
    match p.property_transfer with
    | some pt =>
      if pt.is_registered_3yr || pt.has_proof_3yr_one_home ||
          pt.is_family_gift_inheritance then .exempt
      else .route .auto_property
    | none => .route .auto_property
  else if p.route_auto_fixed_220_10 then .route .auto_fixed_220_10
  else if p.route_auto_land then .route .auto_land
  else
    let t := p.turnover.getD emptyTurnover
    if adjusted_turnover t > TURNOVER_THRESHOLD then
      if p.does_trade || p.does_catering then .route .trade_catering_over_200k
      else .notEligible "218.1.1"
    else .route .general

/-- One disqualifier rule of the registry (spec section 3, `Rule`):
identifier, statutory article and a predicate over the profile that is
`true` when the rule passes (no disqualification). -/
structure DisqualifierRule where
  id : String
  article : String
  passes : EvaluateRequest → Bool

/-- Modelled from the spec: the fixed, ordered disqualifier registry of
spec section 4.4 (articles 218.5.1 through 218.5.13, with the 218.6.1
and 218.6.2 e-invoice exceptions and the compulsory-insurance
carve-out); the backend rule set is not in the sources.  A missing
e-invoice ratio grants no exception. -/
def ruleRegistry : List DisqualifierRule :=
  [ { id := "excise_producer", article := "218.5.1",
      passes := fun p => !p.produces_excise_goods },
    { id := "financial_sector", article := "218.5.2",
      passes := fun p => !(p.is_credit_org || p.is_insurance_market_participant ||
        p.is_investment_fund || p.is_securities_licensed || p.is_pawnshop) },
    { id := "non_state_pension_fund", article := "218.5.3",
      passes := fun p => !p.is_non_state_pension_fund },
    { id := "rental_royalty_income", article := "218.5.4",
      passes := fun p => !(p.has_rental_income || p.has_royalty_income) },
    { id := "natural_monopoly", article := "218.5.5",
      passes := fun p => !p.is_natural_monopoly },
    { id := "fixed_assets_value", article := "218.5.6",
      passes := fun p => !(p.fixed_assets_residual_value.getD 0 > FIXED_ASSETS_THRESHOLD) },
    { id := "public_legal_entity", article := "218.5.7",
      passes := fun p => !p.is_public_legal_entity },
    { id := "production_employees", article := "218.5.8",
      passes := fun p => !(p.does_production &&
        p.avg_quarterly_employees.getD 0 > EMPLOYEE_THRESHOLD) },
    { id := "wholesale_trade", article := "218.5.9",
      passes := fun p => !(p.does_wholesale &&
        !((EvaluateRequest.wholesale_einvoice_ratio p).getD 1 ≤ EXCEPTION_RATIO_THRESHOLD)) },
    { id := "b2b_works_services", article := "218.5.10",
      passes := fun p => !(p.does_b2b_works_services &&
        !((EvaluateRequest.b2b_einvoice_ratio p).getD 1 ≤ EXCEPTION_RATIO_THRESHOLD)) },
    { id := "gold_jewelry_diamonds", article := "218.5.11",
      passes := fun p => !p.sells_gold_jewelry_diamonds },
    { id := "fur_leather", article := "218.5.12",
      passes := fun p => !p.sells_fur_leather },
    { id := "licensed_activities", article := "218.5.13",
      passes := fun p => !(!p.licensed_activity_codes.isEmpty &&
        !p.has_compulsory_insurance_carveout) } ]

/-- Modelled from the spec: the trace recorder (spec sections 2 and 4.4)
runs every rule of the registry in order without short-circuiting and
records one entry per rule. -/
def runRules (p : EvaluateRequest) : List TraceEntry :=
  ruleRegistry.map (fun r =>
    { rule := r.id, result := r.passes p, details := r.id, article := r.article })

/-- Modelled from the spec: exception entries recorded in
`exemptions_applied` when an exception rule fires in favour of the
caller (spec section 4.4). -/
def exemptionsApplied (p : EvaluateRequest) : List String :=
  (if p.does_wholesale && (EvaluateRequest.wholesale_einvoice_ratio p).getD 1 ≤ EXCEPTION_RATIO_THRESHOLD
    then ["218.6.1"] else []) ++
  (if p.does_b2b_works_services && (EvaluateRequest.b2b_einvoice_ratio p).getD 1 ≤ EXCEPTION_RATIO_THRESHOLD
    then ["218.6.2"] else []) ++
  (if !p.licensed_activity_codes.isEmpty && p.has_compulsory_insurance_carveout
    then ["218.5.13-carveout"] else [])

/-- Modelled from the spec: the tax calculator of spec section 4.5,
returning (amount, base, rate) for the selected route.  The
trade/catering sub-base split is open in the spec (section 9) and is
modelled with the POS-eligible turnover as the 6 percent sub-base; the
land, transport, betting and fixed-220.10 amounts come from external
collaborators and are not computed by the engine. -/
def computeTax (p : EvaluateRequest) : TaxRoute → Option ℚ × Option ℚ × Option ℚ
  | .general =>
      let a := adjusted_turnover (p.turnover.getD emptyTurnover)
      (some (round2 (a * GENERAL_TAX_RATE)), some a, some GENERAL_TAX_RATE)
  | .trade_catering_over_200k =>
      let t := p.turnover.getD emptyTurnover
      (some (round2 ((vat_taxable t - pos_eligible t) * (8/100) +
        pos_eligible t * (6/100))), some (adjusted_turnover t), none)
  | .auto_property =>
      match p.property_transfer with
      | some pt =>
          let billable := if pt.property_type = .residential
            then max (pt.area_m2 - 30) 0 else pt.area_m2
          (some (billable * 15 * zoneCoefficient pt.location_zone), some billable, none)
      | none => (none, none, none)
  | .auto_land => (none, none, none)
  | .auto_transport => (none, none, none)
  | .auto_betting_lottery => (none, none, none)
  | .auto_fixed_220_10 => (none, none, none)

/-- Modelled from the spec: the full evaluation pipeline of spec
section 2 (validate, compute turnover, select route, run disqualifiers,
compute tax, assemble result and trace); the backend engine is not in
the sources.  Terminal route outcomes produce no rule trace; when a
route is selected every registry rule runs, `eligible` is the
conjunction of the rule outcomes and the first failing rule in registry
order is surfaced as the reason. -/
def evalRequest (p : EvaluateRequest) : EvaluateResponse :=
  match selectRoute p with
  | .notEligible art =>
      { eligible := false, tax_amount := none, currency := "AZN", route := none,
        tax_base := none, tax_rate := none, exemptions_applied := [],
        reason_code := some art,
        reason_description := some "Not eligible for the simplified tax regime",
        legal_basis := [{ article := art, description := "Simplified tax eligibility", source_url := "" }],
        debug_trace := none }
  | .exempt =>
      { eligible := true, tax_amount := some 0, currency := "AZN",
        route := some .auto_property, tax_base := some 0, tax_rate := none,
        exemptions_applied := ["218-1.1.5"], reason_code := none,
        reason_description := none,
        legal_basis := [{ article := "218-1.1.5", description := "Property transfer exemption", source_url := "" }],
        debug_trace := none }
  | .route r =>
      let tr := runRules p
      match tr.find? (fun e => !e.result) with
      | some e =>
          { eligible := false, tax_amount := none, currency := "AZN",
            route := some r, tax_base := none, tax_rate := none,
            exemptions_applied := [], reason_code := some e.article,
            reason_description := some e.details,
            legal_basis := [{ article := e.article, description := e.details, source_url := "" }],
            debug_trace := some tr }
      | none =>
          let tb := computeTax p r
          { eligible := true, tax_amount := tb.1, currency := "AZN",
            route := some r, tax_base := tb.2.1, tax_rate := tb.2.2,
            exemptions_applied := exemptionsApplied p, reason_code := none,
            reason_description := none,
            legal_basis := [{ article := "218", description := "Simplified tax", source_url := "" }],
            debug_trace := some tr }

/-- Text typed into an HTML number input of the wizard
(`frontend/app/calculator/page.tsx` keeps these as strings): either the
empty string, a string whose JavaScript `parseFloat` yields the given
number, or a non-empty string on which `parseFloat` yields `NaN`. -/
inductive EnteredText where
  | empty
  | numeric (q : ℚ)
  | nonNumeric
deriving DecidableEq, Repr

/-- JavaScript truthiness of the entered string: the empty string is
falsy, every non-empty string is truthy (guards
`if (turnoverData.gross_turnover_12m)` and `propertyData.area_m2` in
`handleSubmit`, `frontend/app/calculator/page.tsx` lines 119 and 130). -/
def EnteredText.isTruthy : EnteredText → Bool
  | .empty => false
  | .numeric _ => true
  | .nonNumeric => true

/-- The expression `parseFloat(s) || 0` used for every numeric field in
`handleSubmit` (`frontend/app/calculator/page.tsx` lines 121-133):
`NaN` (empty or non-numeric text) falls back to 0, a parsed 0 stays 0,
any other parsed value is kept, including negative ones. -/
def EnteredText.parseFloatOrZero : EnteredText → ℚ
  | .empty => 0
  | .numeric q => q
  | .nonNumeric => 0

/-- Turnover form state of the wizard (`turnoverData` useState,
`frontend/app/calculator/page.tsx` lines 90-95). -/
structure TurnoverFormState where
  gross_turnover_12m : EnteredText
  vat_exempt_turnover_12m : EnteredText
  pos_retail_nonregistered_12m : EnteredText
  pos_services_nonregistered_12m : EnteredText
deriving DecidableEq, Repr

/-- Property form state of the wizard (`propertyData` useState,
`frontend/app/calculator/page.tsx` lines 98-102). -/
structure PropertyFormState where
  property_type : PropertyType
  area_m2 : EnteredText
  location_zone : LocationZone
deriving DecidableEq, Repr

/-- Wizard form state (`frontend/app/calculator/page.tsx`): the
`formData` request object, the `propertyExemption` radio string and the
two structured form sub-states. -/
structure WizardState where
  formData : EvaluateRequest
  propertyExemption : String
  turnoverData : TurnoverFormState
  propertyData : PropertyFormState

/-- Request construction of `handleSubmit`
(`frontend/app/calculator/page.tsx` lines 113-139): spread `formData`,
attach a turnover object when the gross-turnover string is truthy, and
attach a property-transfer object when `route_auto_property` is set and
an area string is truthy; the three exemption booleans are equality
tests of the single `propertyExemption` radio value. -/
def buildRequest (s : WizardState) : EvaluateRequest :=
  let formTurnover : TurnoverInput :=
    { gross_turnover_12m := s.turnoverData.gross_turnover_12m.parseFloatOrZero
      vat_exempt_turnover_12m := s.turnoverData.vat_exempt_turnover_12m.parseFloatOrZero
      vat_exempt_categories := []
      pos_retail_nonregistered_12m := s.turnoverData.pos_retail_nonregistered_12m.parseFloatOrZero
      pos_services_nonregistered_12m := s.turnoverData.pos_services_nonregistered_12m.parseFloatOrZero }
  let formProperty : PropertyTransferInput :=
    { property_type := s.propertyData.property_type
      area_m2 := s.propertyData.area_m2.parseFloatOrZero
      location_zone := s.propertyData.location_zone
      is_registered_3yr := s.propertyExemption == "registered_3yr"
      has_proof_3yr_one_home := s.propertyExemption == "proof_3yr_one_home"
      is_family_gift_inheritance := s.propertyExemption == "family_gift_inheritance" }
  let request := s.formData
  let request := if s.turnoverData.gross_turnover_12m.isTruthy then
      { request with turnover := some formTurnover }
    else request
  let request := if s.formData.route_auto_property && s.propertyData.area_m2.isTruthy then
      { request with property_transfer := some formProperty }
    else request
  request

/-- Action taken by `handleNext` (`frontend/app/calculator/page.tsx`
lines 151-166): show a validation error, submit the evaluation
immediately, or advance to the next step. -/
inductive NextAction where
  | showError (msg : String)
  | submitNow
  | advance (newStep : Nat)
deriving DecidableEq, Repr

/-- Number of wizard steps (`STEPS`, `frontend/app/calculator/page.tsx`
lines 14-20). -/
def STEPS_length : Nat := 5

/-- The `handleNext` handler (`frontend/app/calculator/page.tsx` lines
151-166): at step 0 an unanswered VAT question shows an error; at step 0
a truthy `is_vat_registered` calls `handleSubmit` and returns;
otherwise the step advances, capped at the last step. -/
def handleNext (currentStep : Nat) (fd : EvaluateRequest) : NextAction :=
  if currentStep = 0 && fd.is_vat_registered = none then
    .showError "Please answer the VAT registration question"
  else if currentStep = 0 && fd.is_vat_registered.getD false then
    .submitNow
  else
    .advance (min (currentStep + 1) (STEPS_length - 1))

/-- Step that `handleSubmit` moves to after a successful response
(`setCurrentStep(4)`, `frontend/app/calculator/page.tsx` line 143): the
result step, bypassing the intermediate steps. -/
def submitResultStep : Nat := 4

/-- Error value thrown by the API client (`ApiError`,
`frontend/lib/api.ts` lines 14-23): status, status text and the
response body text. -/
structure ApiError where
  status : Nat
  statusText : String
  message : String
deriving DecidableEq, Repr

/-- Model of the HTTP transport seen by one `fetch` call: the response
flags and body, with the parsed JSON body carried as a structured
value.  The body of an issued request is the JSON serialisation of the
request value and is modelled by the request value itself. -/
structure HttpResponse where
  ok : Bool
  status : Nat
  statusText : String
  bodyText : String
  jsonBody : EvaluateResponse
deriving DecidableEq, Repr

/-- One HTTP request issued by the client: URL, method and JSON body
(the serialised `EvaluateRequest`). -/
structure IssuedRequest where
  url : String
  method : String
  body : EvaluateRequest
deriving DecidableEq, Repr

/-- Base URL of the API (`API_URL`, `frontend/lib/api.ts` line 12, with
the default backend address). -/
def API_URL : String := "http://localhost:8000"

/-- The `fetchWithError` helper (`frontend/lib/api.ts` lines 25-43): a
single `fetch` of the given request; a non-ok response throws an
`ApiError` built from status, status text and body text, with no retry;
an ok response yields the parsed JSON body unchanged. -/
def fetchWithError (url : String) (method : String) (body : EvaluateRequest)
    (transport : HttpResponse) : List IssuedRequest × Except ApiError EvaluateResponse :=
  ([{ url := url, method := method, body := body }],
    if transport.ok then .ok transport.jsonBody
    else .error { status := transport.status, statusText := transport.statusText,
                  message := transport.bodyText })

/-- The `evaluateSimplifiedTax` client (`frontend/lib/api.ts` lines
48-60): appends `?debug=1` exactly when the debug flag is set and POSTs
the JSON-serialised request through `fetchWithError`. -/
def evaluateSimplifiedTax (request : EvaluateRequest) (debug : Bool)
    (transport : HttpResponse) : List IssuedRequest × Except ApiError EvaluateResponse :=
  let queryParams := if debug then "?debug=1" else ""
  fetchWithError (API_URL ++ "/api/v1/simplified-tax/evaluate" ++ queryParams)
    "POST" request transport

/-- Failing trace entries shown in the not-eligible debug panel
(`frontend/components/questionnaire/ResultCard.tsx` lines 52-54:
`debug_trace.filter((t) => !t.result).slice(0, 1)`). -/
def displayedDebugFailures (tr : List TraceEntry) : List TraceEntry :=
  (tr.filter (fun e => !e.result)).take 1

/-- What the eligible result card shows as the main tax figure. -/
inductive AmountDisplay where
  | notShown
  | exemptLabel
  | currencyAmount (q : ℚ)
deriving DecidableEq, Repr

/-- Main tax figure of the result card
(`frontend/components/questionnaire/ResultCard.tsx` lines 19 and
103-109): the not-eligible card shows no amount; an eligible card with
a null or undefined `tax_amount` shows none; a zero amount renders the
exempt label, any other amount renders as currency. -/
def mainTaxDisplay (r : EvaluateResponse) : AmountDisplay :=
  if !r.eligible then .notShown
  else match r.tax_amount with
    | none => .notShown
    | some a => if a = 0 then .exemptLabel else .currencyAmount a

/-- JavaScript truthiness of an optional number (`undefined`, `null`
and `0` are falsy), as used by the conditional renderings
`result.tax_base && ...` and `result.tax_rate && ...` in
`frontend/components/questionnaire/ResultCard.tsx` lines 150 and 162. -/
def truthyOptNum : Option ℚ → Bool
  | none => false
  | some q => !(q = 0 : Bool)

/-- Whether the calculation-breakdown panel renders
(`frontend/components/questionnaire/ResultCard.tsx` lines 19, 147 and
150): only on the eligible card, only with the details accordion
expanded, and only when `tax_base` is truthy. -/
def rendersBreakdown (r : EvaluateResponse) (showDetails : Bool) : Bool :=
  r.eligible && showDetails && truthyOptNum r.tax_base

/-- Whether the tax-rate row renders
(`frontend/components/questionnaire/ResultCard.tsx` line 162): inside
the breakdown panel and only when `tax_rate` is truthy. -/
def rendersTaxRateRow (r : EvaluateResponse) (showDetails : Bool) : Bool :=
  rendersBreakdown r showDetails && truthyOptNum r.tax_rate

/-- Request with every flag cleared and every optional field absent;
this is the `formData` initial state of the wizard
(`frontend/app/calculator/page.tsx` lines 51-84) with the VAT question
answered no, used as the base of the concrete fixtures below. -/
def baseRequest : EvaluateRequest :=
  { is_vat_registered := some false
    route_auto_transport := false
    route_auto_betting_lottery := false
    route_auto_property := false
    route_auto_fixed_220_10 := false
    route_auto_land := false
    property_transfer := none
    does_trade := false
    does_catering := false
    turnover := none
    produces_excise_goods := false
    is_credit_org := false
    is_insurance_market_participant := false
    is_investment_fund := false
    is_securities_licensed := false
    is_pawnshop := false
    is_non_state_pension_fund := false
    has_rental_income := false
    has_royalty_income := false
    is_natural_monopoly := false
    fixed_assets_residual_value := none
    licensed_activity_codes := []
    has_compulsory_insurance_carveout := false
    does_production := false
    avg_quarterly_employees := none
    does_wholesale := false
    wholesale_einvoice_ratio := none
    does_b2b_works_services := false
    b2b_einvoice_ratio := none
    sells_gold_jewelry_diamonds := false
    sells_fur_leather := false
    is_public_legal_entity := false }

/-- Taking one element of a filtered list picks exactly the first
element satisfying the predicate. -/
theorem take_one_filter_eq_find (q : α → Bool) (l : List α) :
    (l.filter q).take 1 = (l.find? q).toList := by
  induction l with
  | nil => rfl
  | cons a t ih =>
    cases h : q a with
    | true => simp [List.filter_cons, List.find?_cons, h]
    | false => simp [List.filter_cons, List.find?_cons, h, ih]

/-- VAT-registered fixture: registered for VAT with adversarial values
in every other field (disqualifiers set, huge turnover, property
flags), showing that nothing else matters. -/
def vatRegProfile : EvaluateRequest :=
  { baseRequest with
    is_vat_registered := some true
    route_auto_transport := true
    does_trade := true
    turnover := some { gross_turnover_12m := 500000, vat_exempt_turnover_12m := 0, vat_exempt_categories := [], pos_retail_nonregistered_12m := 0, pos_services_nonregistered_12m := 0 }
    has_rental_income := true
    sells_fur_leather := true
    is_public_legal_entity := true }

/-- C1.  For every profile with `is_vat_registered = true` the
evaluation is terminal not-eligible with reason 218.1.1 and a null tax
amount, regardless of every other field; and in the wizard, a truthy
VAT answer at step 0 makes Continue submit immediately (`handleNext`
returns the submit action rather than advancing, and `handleSubmit`
jumps straight to the result step). -/
theorem vat_registered_terminal :
    (∀ p : EvaluateRequest, p.is_vat_registered = some true →
      (evalRequest p).eligible = false ∧
      (evalRequest p).reason_code = some "218.1.1" ∧
      (evalRequest p).tax_amount = none) ∧
    (∀ fd : EvaluateRequest, fd.is_vat_registered = some true →
      handleNext 0 fd = .submitNow) ∧
    submitResultStep = 4 := by
  refine ⟨fun p h => ?_, fun fd h => ?_, rfl⟩
  · simp [evalRequest, selectRoute, h]
  · simp [handleNext, h]

/-- Witness for C1 at the adversarial VAT-registered fixture. -/
theorem vat_registered_terminal_witness :
    ((evalRequest vatRegProfile).eligible = false ∧
      (evalRequest vatRegProfile).reason_code = some "218.1.1" ∧
      (evalRequest vatRegProfile).tax_amount = none) ∧
    handleNext 0 vatRegProfile = .submitNow :=
  ⟨vat_registered_terminal.1 vatRegProfile rfl,
   vat_registered_terminal.2.1 vatRegProfile rfl⟩

/-- Turnover fixture whose adjusted turnover is negative: zero gross,
ten units of VAT-exempt turnover. -/
def negTurnover : TurnoverInput :=
  { gross_turnover_12m := 0
    vat_exempt_turnover_12m := 10
    vat_exempt_categories := []
    pos_retail_nonregistered_12m := 0
    pos_services_nonregistered_12m := 0 }

/-- Profile carrying the negative-adjusted-turnover fixture. -/
def negTurnoverProfile : EvaluateRequest :=
  { baseRequest with turnover := some negTurnover }

/-- C2.  The derived adjusted turnover equals
`(gross - vat_exempt) - 0.5 x (pos_retail + pos_services)` for every
turnover input; a negative result is not clamped to zero (the fixture
evaluates to -10 and that negative value flows into the tax base of the
response untouched).  The derivation is a pure function of the turnover
input alone, so no field is ever written back into the profile. -/
theorem adjusted_turnover_formula :
    (∀ t : TurnoverInput, adjusted_turnover t =
      (t.gross_turnover_12m - t.vat_exempt_turnover_12m) -
        (1/2) * (t.pos_retail_nonregistered_12m + t.pos_services_nonregistered_12m)) ∧
    adjusted_turnover negTurnover = -10 ∧
    adjusted_turnover negTurnover < 0 ∧
    (evalRequest negTurnoverProfile).tax_base = some (-10) := by
  refine ⟨fun t => ?_, ?_, ?_, ?_⟩
  · unfold adjusted_turnover vat_taxable pos_eligible POS_COEFFICIENT
    ring
  · norm_num [adjusted_turnover, vat_taxable, pos_eligible, POS_COEFFICIENT, negTurnover]
  · norm_num [adjusted_turnover, vat_taxable, pos_eligible, POS_COEFFICIENT, negTurnover]
  · norm_num [evalRequest, selectRoute, adjusted_turnover, vat_taxable, pos_eligible,
      POS_COEFFICIENT, TURNOVER_THRESHOLD, FIXED_ASSETS_THRESHOLD, EMPLOYEE_THRESHOLD,
      EXCEPTION_RATIO_THRESHOLD, emptyTurnover, runRules, ruleRegistry, exemptionsApplied,
      computeTax, GENERAL_TAX_RATE, round2, round_eq, negTurnoverProfile, negTurnover,
      baseRequest, List.find?]

/-- Response fixture standing for a parsed JSON body. -/
def sampleResponse : EvaluateResponse :=
  { eligible := true, tax_amount := some 3000, currency := "AZN",
    route := some .general, tax_base := some 150000, tax_rate := some (2/100),
    exemptions_applied := [], reason_code := none, reason_description := none,
    legal_basis := [], debug_trace := none }

/-- Transport fixture for a successful HTTP exchange. -/
def okTransport : HttpResponse :=
  { ok := true, status := 200, statusText := "OK", bodyText := "",
    jsonBody := sampleResponse }

/-- Transport fixture for a failed HTTP exchange. -/
def badTransport : HttpResponse :=
  { ok := false, status := 422, statusText := "Unprocessable Entity",
    bodyText := "validation failed", jsonBody := sampleResponse }

/-- C7.  Each call of `evaluateSimplifiedTax` issues exactly one HTTP
POST whose body is the serialised request, with the debug query
parameter appended exactly when the debug flag is set; a non-ok
response raises an `ApiError` carrying status, status text and body
with no internal retry, and an ok response returns the parsed JSON body
unchanged. -/
theorem evaluate_api_single_request :
    ∀ (request : EvaluateRequest) (debug : Bool) (transport : HttpResponse),
      (evaluateSimplifiedTax request debug transport).1.length = 1 ∧
      (evaluateSimplifiedTax request debug transport).1 =
        [{ url := API_URL ++ "/api/v1/simplified-tax/evaluate" ++
            (if debug then "?debug=1" else ""),
           method := "POST", body := request }] ∧
      (transport.ok = false →
        (evaluateSimplifiedTax request debug transport).2 =
          .error { status := transport.status, statusText := transport.statusText,
                   message := transport.bodyText }) ∧
      (transport.ok = true →
        (evaluateSimplifiedTax request debug transport).2 = .ok transport.jsonBody) := by
  intro request debug transport
  refine ⟨rfl, rfl, fun h => ?_, fun h => ?_⟩ <;>
    simp [evaluateSimplifiedTax, fetchWithError, h]

/-- Witness for C7 on one ok and one failing transport. -/
theorem evaluate_api_single_request_witness :
    (evaluateSimplifiedTax baseRequest true okTransport).2 = .ok sampleResponse ∧
    (evaluateSimplifiedTax baseRequest false badTransport).2 =
      .error { status := 422, statusText := "Unprocessable Entity",
               message := "validation failed" } ∧
    (evaluateSimplifiedTax baseRequest true okTransport).1.length = 1 :=
  ⟨(evaluate_api_single_request baseRequest true okTransport).2.2.2 rfl,
   (evaluate_api_single_request baseRequest false badTransport).2.2.1 rfl,
   (evaluate_api_single_request baseRequest true okTransport).1⟩

/-- Exempt response fixture: eligible with zero amounts, as produced
for a fully exempt property transfer. -/
def exemptResponse : EvaluateResponse :=
  { eligible := true, tax_amount := some 0, currency := "AZN",
    route := some .auto_property, tax_base := some 0, tax_rate := some 0,
    exemptions_applied := ["218-1.1.5"], reason_code := none,
    reason_description := none, legal_basis := [], debug_trace := none }

/-- C10.  On an eligible response whose `tax_base` is 0, null or
undefined the breakdown panel never renders, even with the details
accordion expanded; and a zero `tax_rate` never renders its row, so an
exempt result with a populated zero tax base shows no breakdown. -/
theorem breakdown_hidden_for_falsy_base :
    ∀ (r : EvaluateResponse) (showDetails : Bool), r.eligible = true →
      ((r.tax_base = none ∨ r.tax_base = some 0) →
        rendersBreakdown r showDetails = false) ∧
      (r.tax_rate = some 0 → rendersTaxRateRow r showDetails = false) := by
  intro r showDetails _
  constructor
  · rintro (h | h) <;> simp [rendersBreakdown, truthyOptNum, h]
  · intro h
    simp [rendersTaxRateRow, rendersBreakdown, truthyOptNum, h]

/-- Witness for C10 at the exempt fixture with the accordion expanded. -/
theorem breakdown_hidden_for_falsy_base_witness :
    rendersBreakdown exemptResponse true = false ∧
    rendersTaxRateRow exemptResponse true = false :=
  ⟨(breakdown_hidden_for_falsy_base exemptResponse true rfl).1 (Or.inr rfl),
   (breakdown_hidden_for_falsy_base exemptResponse true rfl).2 rfl⟩

/-- Turnover fixture above the 200000 threshold. -/
def bigTurnover : TurnoverInput :=
  { gross_turnover_12m := 250000
    vat_exempt_turnover_12m := 0
    vat_exempt_categories := []
    pos_retail_nonregistered_12m := 0
    pos_services_nonregistered_12m := 0 }

/-- Over-threshold profile with the trade flag set. -/
def tradeProfile : EvaluateRequest :=
  { baseRequest with does_trade := true, turnover := some bigTurnover }

/-- Over-threshold profile with neither trade nor catering. -/
def overProfile : EvaluateRequest :=
  { baseRequest with turnover := some bigTurnover }

/-- Scenario A turnover of spec section 8: gross 150000, everything
else zero. -/
def scenarioATurnover : TurnoverInput :=
  { gross_turnover_12m := 150000
    vat_exempt_turnover_12m := 0
    vat_exempt_categories := []
    pos_retail_nonregistered_12m := 0
    pos_services_nonregistered_12m := 0 }

/-- Scenario A profile of spec section 8. -/
def scenarioAProfile : EvaluateRequest :=
  { baseRequest with turnover := some scenarioATurnover }

/-- C3.  A profile that reaches the turnover check (no automatic-route
flag, not VAT-registered) selects `TRADE_CATERING` above the 200000
threshold when trade or catering is set, is terminal not-eligible with
article 218.1.1 above the threshold otherwise, and selects `GENERAL` at
or below the threshold. -/
theorem turnover_route_selection :
    ∀ (p : EvaluateRequest) (t : TurnoverInput),
      p.is_vat_registered.getD false = false →
      p.route_auto_transport = false →
      p.route_auto_betting_lottery = false →
      p.route_auto_property = false →
      p.route_auto_fixed_220_10 = false →
      p.route_auto_land = false →
      p.turnover = some t →
      ((adjusted_turnover t > TURNOVER_THRESHOLD →
        ((p.does_trade || p.does_catering) = true →
          selectRoute p = .route .trade_catering_over_200k) ∧
        ((p.does_trade || p.does_catering) = false →
          selectRoute p = .notEligible "218.1.1")) ∧
      (adjusted_turnover t ≤ TURNOVER_THRESHOLD →
        selectRoute p = .route .general)) := by
  intro p t hv h1 h2 h3 h4 h5 ht
  refine ⟨fun hgt => ⟨fun hd => ?_, fun hd => ?_⟩, fun hle => ?_⟩
  · simp [selectRoute, hv, h1, h2, h3, h4, h5, ht, hgt, hd]
  · simp [selectRoute, hv, h1, h2, h3, h4, h5, ht, hgt, hd]
  · simp [selectRoute, hv, h1, h2, h3, h4, h5, ht, not_lt.mpr hle]

/-- Witness for C3 on the three concrete threshold fixtures. -/
theorem turnover_route_selection_witness :
    selectRoute tradeProfile = .route .trade_catering_over_200k ∧
    selectRoute overProfile = .notEligible "218.1.1" ∧
    selectRoute scenarioAProfile = .route .general := by
  have hbig : adjusted_turnover bigTurnover > TURNOVER_THRESHOLD := by
    norm_num [adjusted_turnover, vat_taxable, pos_eligible, POS_COEFFICIENT,
      TURNOVER_THRESHOLD, bigTurnover]
  have hsmall : adjusted_turnover scenarioATurnover ≤ TURNOVER_THRESHOLD := by
    norm_num [adjusted_turnover, vat_taxable, pos_eligible, POS_COEFFICIENT,
      TURNOVER_THRESHOLD, scenarioATurnover]
  exact ⟨((turnover_route_selection tradeProfile bigTurnover rfl rfl rfl rfl rfl rfl
      rfl).1 hbig).1 rfl,
    ((turnover_route_selection overProfile bigTurnover rfl rfl rfl rfl rfl rfl
      rfl).1 hbig).2 rfl,
    (turnover_route_selection scenarioAProfile scenarioATurnover rfl rfl rfl rfl rfl rfl
      rfl).2 hsmall⟩

/-- C4.  On every eligible profile routed to `GENERAL` the tax amount
is `round(adjusted_turnover x 0.02, 2)`; Scenario A of spec section 8
(gross turnover 150000, nothing else) evaluates to eligible, route
general, tax 3000. -/
theorem general_route_tax :
    (∀ (p : EvaluateRequest) (t : TurnoverInput), p.turnover = some t →
      (evalRequest p).route = some TaxRoute.general →
      (evalRequest p).eligible = true →
      (evalRequest p).tax_amount =
        some (round2 (adjusted_turnover t * GENERAL_TAX_RATE))) ∧
    ((evalRequest scenarioAProfile).eligible = true ∧
     (evalRequest scenarioAProfile).route = some TaxRoute.general ∧
     (evalRequest scenarioAProfile).tax_amount = some 3000) := by
  constructor
  · intro p t ht hr he
    cases hs : selectRoute p with
    | notEligible a => simp [evalRequest, hs] at hr
    | exempt => simp [evalRequest, hs] at hr
    | route r =>
      cases hf : (runRules p).find? (fun e => !e.result) with
      | some e => simp [evalRequest, hs, hf] at he
      | none =>
        simp only [evalRequest, hs, hf] at hr ⊢
        simp only [Option.some.injEq] at hr
        subst hr
        simp [computeTax, ht]
  · norm_num [evalRequest, selectRoute, adjusted_turnover, vat_taxable, pos_eligible,
      POS_COEFFICIENT, TURNOVER_THRESHOLD, FIXED_ASSETS_THRESHOLD, EMPLOYEE_THRESHOLD,
      EXCEPTION_RATIO_THRESHOLD, emptyTurnover, runRules, ruleRegistry, exemptionsApplied,
      computeTax, GENERAL_TAX_RATE, round2, round_eq, scenarioAProfile, scenarioATurnover,
      baseRequest, List.find?]

/-- Witness for C4: the general formula applied at Scenario A. -/
theorem general_route_tax_witness :
    (evalRequest scenarioAProfile).tax_amount =
      some (round2 (adjusted_turnover scenarioATurnover * GENERAL_TAX_RATE)) :=
  general_route_tax.1 scenarioAProfile scenarioATurnover rfl
    general_route_tax.2.2.1 general_route_tax.2.1

/-- Exempt property-transfer fixture: registered three years at the
address. -/
def exemptPt : PropertyTransferInput :=
  { property_type := .residential, area_m2 := 100, location_zone := .baku_other,
    is_registered_3yr := true, has_proof_3yr_one_home := false,
    is_family_gift_inheritance := false }

/-- Profile on the property route with the exempt fixture (Scenario C
of spec section 8). -/
def exemptPropProfile : EvaluateRequest :=
  { baseRequest with route_auto_property := true, property_transfer := some exemptPt }

/-- Property-transfer fixture with no exemption: residential, 50 square
metres. -/
def plainPt : PropertyTransferInput :=
  { property_type := .residential, area_m2 := 50, location_zone := .baku_other,
    is_registered_3yr := false, has_proof_3yr_one_home := false,
    is_family_gift_inheritance := false }

/-- Profile on the property route with no exemption claimed. -/
def plainPropProfile : EvaluateRequest :=
  { baseRequest with route_auto_property := true, property_transfer := some plainPt }

/-- C5.  When the property automatic route wins, any one of the three
exemption booleans makes the outcome the terminal `EXEMPT` state with
`eligible = true` and a zero tax amount, which the result card renders
as the exemption label rather than a currency amount; with none of them
the route is `AUTO_PROPERTY` and the residential tax base is the area
less the 30 square-metre exemption, floored at zero. -/
theorem property_subcheck_routes :
    ∀ (p : EvaluateRequest) (pt : PropertyTransferInput),
      p.is_vat_registered.getD false = false →
      p.route_auto_transport = false →
      p.route_auto_betting_lottery = false →
      p.route_auto_property = true →
      p.property_transfer = some pt →
      (((pt.is_registered_3yr || pt.has_proof_3yr_one_home ||
          pt.is_family_gift_inheritance) = true →
        selectRoute p = .exempt ∧
        (evalRequest p).eligible = true ∧
        (evalRequest p).tax_amount = some 0 ∧
        mainTaxDisplay (evalRequest p) = .exemptLabel) ∧
      ((pt.is_registered_3yr || pt.has_proof_3yr_one_home ||
          pt.is_family_gift_inheritance) = false →
        selectRoute p = .route .auto_property ∧
        (pt.property_type = .residential →
          (computeTax p TaxRoute.auto_property).2.1 =
            some (max (pt.area_m2 - 30) 0)))) := by
  intro p pt hv h1 h2 h3 hpt
  constructor
  · intro hex
    have hs : selectRoute p = .exempt := by
      simp [selectRoute, hv, h1, h2, h3, hpt, hex]
    refine ⟨hs, ?_, ?_, ?_⟩ <;> simp [evalRequest, hs, mainTaxDisplay]
  · intro hex
    have hs : selectRoute p = .route .auto_property := by
      simp [selectRoute, hv, h1, h2, h3, hpt, hex]
    exact ⟨hs, fun hres => by simp [computeTax, hpt, hres]⟩

/-- Witness for C5 on the exempt and no-exemption fixtures. -/
theorem property_subcheck_routes_witness :
    (selectRoute exemptPropProfile = .exempt ∧
     (evalRequest exemptPropProfile).eligible = true ∧
     (evalRequest exemptPropProfile).tax_amount = some 0 ∧
     mainTaxDisplay (evalRequest exemptPropProfile) = .exemptLabel) ∧
    (selectRoute plainPropProfile = .route .auto_property ∧
     (computeTax plainPropProfile TaxRoute.auto_property).2.1 =
       some (max ((50 : ℚ) - 30) 0)) := by
  refine ⟨(property_subcheck_routes exemptPropProfile exemptPt rfl rfl rfl rfl rfl).1 rfl, ?_⟩
  have h := (property_subcheck_routes plainPropProfile plainPt rfl rfl rfl rfl rfl).2 rfl
  exact ⟨h.1, h.2 rfl⟩

/-- Profile with two failing disqualifiers: rental income (218.5.4,
earlier in the registry) and fur/leather sales (218.5.12, later). -/
def failTraceProfile : EvaluateRequest :=
  { baseRequest with has_rental_income := true, sells_fur_leather := true }

/-- C6.  Whenever the trace of an evaluation contains a failing rule
entry, the trace is exactly one entry per registry rule in registry
order (no short-circuit), the surfaced reason is the first failing
entry in that order, and the not-eligible debug panel displays exactly
that first failing entry and no later one. -/
theorem first_failing_rule_surfaced :
    ∀ (p : EvaluateRequest) (tr : List TraceEntry),
      (evalRequest p).debug_trace = some tr →
      (∃ e ∈ tr, e.result = false) →
      tr = runRules p ∧ tr.length = ruleRegistry.length ∧
      ∃ e, tr.find? (fun x => !x.result) = some e ∧
        (evalRequest p).eligible = false ∧
        (evalRequest p).reason_code = some e.article ∧
        displayedDebugFailures tr = [e] := by
  intro p tr htr hfail
  cases hs : selectRoute p with
  | notEligible a => simp [evalRequest, hs] at htr
  | exempt => simp [evalRequest, hs] at htr
  | route r =>
    cases hf : (runRules p).find? (fun e => !e.result) with
    | none =>
      simp only [evalRequest, hs, hf, Option.some.injEq] at htr
      subst htr
      obtain ⟨e, hmem, hres⟩ := hfail
      have hnone := List.find?_eq_none.mp hf e hmem
      simp [hres] at hnone
    | some e =>
      simp only [evalRequest, hs, hf, Option.some.injEq] at htr
      subst htr
      refine ⟨rfl, by simp [runRules], e, hf, ?_, ?_, ?_⟩
      · simp [evalRequest, hs, hf]
      · simp [evalRequest, hs, hf]
      · simp [displayedDebugFailures, take_one_filter_eq_find, hf]

/-- Witness for C6 on the two-failure fixture: the rental-income rule
is surfaced and displayed, not the later fur/leather failure. -/
theorem first_failing_rule_surfaced_witness :
    runRules failTraceProfile = runRules failTraceProfile ∧
    (runRules failTraceProfile).length = ruleRegistry.length ∧
    ∃ e, (runRules failTraceProfile).find? (fun x => !x.result) = some e ∧
      (evalRequest failTraceProfile).eligible = false ∧
      (evalRequest failTraceProfile).reason_code = some e.article ∧
      displayedDebugFailures (runRules failTraceProfile) = [e] :=
  first_failing_rule_surfaced failTraceProfile (runRules failTraceProfile)
    (by norm_num [evalRequest, selectRoute, adjusted_turnover, vat_taxable, pos_eligible,
      POS_COEFFICIENT, TURNOVER_THRESHOLD, FIXED_ASSETS_THRESHOLD, EMPLOYEE_THRESHOLD,
      EXCEPTION_RATIO_THRESHOLD, emptyTurnover, runRules, ruleRegistry,
      failTraceProfile, baseRequest, List.find?])
    (by norm_num [runRules, ruleRegistry, failTraceProfile, baseRequest,
      FIXED_ASSETS_THRESHOLD, EMPLOYEE_THRESHOLD, EXCEPTION_RATIO_THRESHOLD])

/-- Wizard state in which the user typed -5 into the gross-turnover
field (the HTML `min` attribute does not stop typed negative values). -/
def negEntryState : WizardState :=
  { formData := baseRequest
    propertyExemption := ""
    turnoverData :=
      { gross_turnover_12m := .numeric (-5)
        vat_exempt_turnover_12m := .empty
        pos_retail_nonregistered_12m := .empty
        pos_services_nonregistered_12m := .empty }
    propertyData :=
      { property_type := .residential, area_m2 := .empty, location_zone := .baku_other } }

/-- The turnover object that `handleSubmit` builds from the negative
entry: the -5 is passed through unclamped. -/
def negEntryTurnover : TurnoverInput :=
  { gross_turnover_12m := -5
    vat_exempt_turnover_12m := 0
    vat_exempt_categories := []
    pos_retail_nonregistered_12m := 0
    pos_services_nonregistered_12m := 0 }

/-- Counterexample to C8 as stated: a wizard state whose entered gross
turnover parses to -5 makes `handleSubmit` include a turnover object
with a negative monetary field. -/
theorem wizard_negative_turnover_counterexample :
    (buildRequest negEntryState).turnover = some negEntryTurnover ∧
    negEntryTurnover.gross_turnover_12m < 0 :=
  ⟨rfl, by norm_num [negEntryTurnover]⟩

/-- C8 (amended).  Provided each of the four entered turnover strings
either fails to parse or parses to a nonnegative number, every monetary
field of the turnover object that `handleSubmit` includes in the request
is nonnegative (the wizard itself never stores a turnover object in
`formData`, so the request turnover can only be the one built here). -/
theorem wizard_turnover_nonneg :
    ∀ (s : WizardState) (tv : TurnoverInput),
      0 ≤ s.turnoverData.gross_turnover_12m.parseFloatOrZero →
      0 ≤ s.turnoverData.vat_exempt_turnover_12m.parseFloatOrZero →
      0 ≤ s.turnoverData.pos_retail_nonregistered_12m.parseFloatOrZero →
      0 ≤ s.turnoverData.pos_services_nonregistered_12m.parseFloatOrZero →
      s.formData.turnover = none →
      (buildRequest s).turnover = some tv →
      0 ≤ tv.gross_turnover_12m ∧ 0 ≤ tv.vat_exempt_turnover_12m ∧
      0 ≤ tv.pos_retail_nonregistered_12m ∧ 0 ≤ tv.pos_services_nonregistered_12m := by
  intro s tv h1 h2 h3 h4 hnone hsome
  by_cases hg : s.turnoverData.gross_turnover_12m.isTruthy = true
  · simp only [buildRequest, hg, if_true] at hsome
    split at hsome <;>
    · simp only [Option.some.injEq] at hsome
      subst hsome
      exact ⟨h1, h2, h3, h4⟩
  · rw [Bool.not_eq_true] at hg
    simp only [buildRequest, hg, Bool.false_eq_true, if_false] at hsome
    split at hsome <;> simp [hnone] at hsome

/-- Wizard state for the nonnegative case: gross entered as 100,
everything else left blank. -/
def posEntryState : WizardState :=
  { formData := baseRequest
    propertyExemption := ""
    turnoverData :=
      { gross_turnover_12m := .numeric 100
        vat_exempt_turnover_12m := .empty
        pos_retail_nonregistered_12m := .empty
        pos_services_nonregistered_12m := .empty }
    propertyData :=
      { property_type := .residential, area_m2 := .empty, location_zone := .baku_other } }

/-- Turnover object built from the nonnegative entry state. -/
def posEntryTurnover : TurnoverInput :=
  { gross_turnover_12m := 100
    vat_exempt_turnover_12m := 0
    vat_exempt_categories := []
    pos_retail_nonregistered_12m := 0
    pos_services_nonregistered_12m := 0 }

/-- Witness for the amended C8 at the nonnegative entry state. -/
theorem wizard_turnover_nonneg_witness :
    0 ≤ posEntryTurnover.gross_turnover_12m ∧
    0 ≤ posEntryTurnover.vat_exempt_turnover_12m ∧
    0 ≤ posEntryTurnover.pos_retail_nonregistered_12m ∧
    0 ≤ posEntryTurnover.pos_services_nonregistered_12m :=
  wizard_turnover_nonneg posEntryState posEntryTurnover
    (by norm_num [posEntryState, EnteredText.parseFloatOrZero])
    (by norm_num [posEntryState, EnteredText.parseFloatOrZero])
    (by norm_num [posEntryState, EnteredText.parseFloatOrZero])
    (by norm_num [posEntryState, EnteredText.parseFloatOrZero])
    rfl rfl

/-- C9.  In every request built by `handleSubmit`, at most one of the
three property-transfer exemption booleans is true, since each is an
equality test of the single `propertyExemption` radio value against a
distinct constant; and a property-transfer object is attached only when
`route_auto_property` is set and an area string has been entered. -/
theorem wizard_property_exclusive :
    ∀ (s : WizardState) (pt : PropertyTransferInput),
      s.formData.property_transfer = none →
      (buildRequest s).property_transfer = some pt →
      ((pt.is_registered_3yr = true →
          pt.has_proof_3yr_one_home = false ∧ pt.is_family_gift_inheritance = false) ∧
       (pt.has_proof_3yr_one_home = true → pt.is_family_gift_inheritance = false)) ∧
      s.formData.route_auto_property = true ∧
      s.propertyData.area_m2.isTruthy = true := by
  intro s pt hnone hsome
  by_cases hc : (s.formData.route_auto_property && s.propertyData.area_m2.isTruthy) = true
  · have hAnd := hc
    rw [Bool.and_eq_true] at hAnd
    simp only [buildRequest, hc, if_true, Option.some.injEq] at hsome
    subst hsome
    refine ⟨⟨fun h => ?_, fun h => ?_⟩, hAnd.1, hAnd.2⟩
    · have he : s.propertyExemption = "registered_3yr" := by simpa using h
      constructor <;> (dsimp only; rw [he]; decide)
    · have he : s.propertyExemption = "proof_3yr_one_home" := by simpa using h
      dsimp only; rw [he]; decide
  · rw [Bool.not_eq_true] at hc
    simp only [buildRequest, hc, Bool.false_eq_true, if_false] at hsome
    split at hsome <;> simp [hnone] at hsome

/-- Wizard state on the property route with the registered-3-years
radio selected and an area of 50 entered. -/
def propEntryState : WizardState :=
  { formData := { baseRequest with route_auto_property := true }
    propertyExemption := "registered_3yr"
    turnoverData :=
      { gross_turnover_12m := .empty
        vat_exempt_turnover_12m := .empty
        pos_retail_nonregistered_12m := .empty
        pos_services_nonregistered_12m := .empty }
    propertyData :=
      { property_type := .residential, area_m2 := .numeric 50, location_zone := .baku_other } }

/-- Property object built by `handleSubmit` from that state. -/
def propEntryPt : PropertyTransferInput :=
  { property_type := .residential, area_m2 := 50, location_zone := .baku_other,
    is_registered_3yr := true, has_proof_3yr_one_home := false,
    is_family_gift_inheritance := false }

/-- Witness for C9 at the concrete property entry state. -/
theorem wizard_property_exclusive_witness :
    ((propEntryPt.is_registered_3yr = true →
        propEntryPt.has_proof_3yr_one_home = false ∧
        propEntryPt.is_family_gift_inheritance = false) ∧
     (propEntryPt.has_proof_3yr_one_home = true →
        propEntryPt.is_family_gift_inheritance = false)) ∧
    propEntryState.formData.route_auto_property = true ∧
    propEntryState.propertyData.area_m2.isTruthy = true :=
  wizard_property_exclusive propEntryState propEntryPt rfl rfl
